import Mathlib

/-
Shallow embedding of the request handlers of `src/server.ts` (the Xero
"Modified Sign Up" sample app).  The datastore is modelled as a list of
User rows in insertion order; Sequelize's `findOne` is the first row
matching the predicate, `update` mutates the found row in place, and
`create` appends a row.  Each Express handler becomes a pure function
from the store (plus the request data and the outcomes of the external
calls it awaits) to a `HandlerResult`: the new store, the HTTP response,
and the cookie operation performed on the response.
-/

set_option autoImplicit false

namespace XeroSSU

/-- Identity claims obtained by `jwtDecode(tokenSet.id_token)` in server.ts. -/
structure DecodedIdToken where
  given_name : String
  family_name : String
  email : String
  xero_userid : String
  deriving Repr, DecidableEq

/-- The token set returned by `xero.apiCallback` (only the field server.ts reads). -/
structure TokenSet where
  id_token : String
  deriving Repr, DecidableEq

/-- A provider-side tenant descriptor, an element of `xero.tenants`. -/
structure Tenant where
  tenantId : String
  deriving Repr, DecidableEq

/-- A persisted User row, with the attributes server.ts reads and writes.
`active_tenant` is an `Option` because `xero.tenants[0]` is `undefined` when
the tenant list is empty; `moreInfo` is `Option` because the callback upsert
never sets it (it stays null until the sign-up form is posted). -/
structure User where
  firstName : String
  lastName : String
  email : String
  xero_userid : String
  decoded_id_token : Option DecodedIdToken
  token_set : Option TokenSet
  active_tenant : Option Tenant
  session : String
  moreInfo : Option String
  deriving Repr, DecidableEq

/-- The fields assembled into `userParams` in the callback handler.
Note the set of fields excludes `moreInfo`. -/
structure UserParams where
  firstName : String
  lastName : String
  email : String
  xero_userid : String
  decoded_id_token : DecodedIdToken
  token_set : TokenSet
  active_tenant : Option Tenant
  session : String
  deriving Repr, DecidableEq

/-- Sequelize `user.update(userParams)`: overwrites exactly the listed
attributes of the existing row; `moreInfo` is not among them and is kept. -/
def User.applyParams (u : User) (p : UserParams) : User :=
  { firstName := p.firstName
    lastName := p.lastName
    email := p.email
    xero_userid := p.xero_userid
    decoded_id_token := some p.decoded_id_token
    token_set := some p.token_set
    active_tenant := p.active_tenant
    session := p.session
    moreInfo := u.moreInfo }

/-- Sequelize `User.create(userParams)`: a brand new row; `moreInfo` is not
in the params, so it is null on the created row. -/
def createUser (p : UserParams) : User :=
  { firstName := p.firstName
    lastName := p.lastName
    email := p.email
    xero_userid := p.xero_userid
    decoded_id_token := some p.decoded_id_token
    token_set := some p.token_set
    active_tenant := p.active_tenant
    session := p.session
    moreInfo := none }

/-- `findUserWithSession` in server.ts: `User.findOne({ where: { session } })`,
the first row whose session attribute equals the given value. -/
def findUserWithSession (s : String) (store : List User) : Option User :=
  store.find? fun u => u.session == s

/-- The callback lookup `User.findOne({ where: { email: decodedIdToken.email } })`. -/
def findUserWithEmail (e : String) (store : List User) : Option User :=
  store.find? fun u => u.email == e

/-- The effect on the store of `user.update(userParams)` where `user` is the
record `findOne` returned: the first row whose email matches is overwritten
in place, every other row is untouched. -/
def updateFirstWithEmail (store : List User) (e : String) (p : UserParams) : List User :=
  match store with
  | [] => []
  | u :: rest =>
    if u.email == e then u.applyParams p :: rest
    else u :: updateFirstWithEmail rest e p

/-- The effect on the store of `user.moreInfo = v; await user.save()` where
`user` is the record `findUserWithSession` returned: the first row whose
session matches gets `moreInfo` set, everything else is untouched. -/
def updateMoreInfoFirstWithSession (store : List User) (s : String) (v : String) :
    List User :=
  match store with
  | [] => []
  | u :: rest =>
    if u.session == s then { u with moreInfo := some v } :: rest
    else u :: updateMoreInfoFirstWithSession rest s v

/-- The cookie operation a handler performs on the response. -/
inductive CookieAction where
  /-- No cookie header is touched. -/
  | none
  /-- `res.cookie(name, value, { signed: true, maxAge: 3600000 })`. -/
  | set (name : String) (value : String)
  /-- `res.clearCookie(name)`. -/
  | clear (name : String)
  deriving Repr, DecidableEq

/-- The observable response of a handler. `uncaughtFailure` models a rejected
promise that escapes an async handler that has no try/catch around the await
(Express 4 does not catch async rejections), as opposed to `renderError`,
the `res.render("shared/error", { error })` page produced inside a catch. -/
inductive Response where
  | redirect (path : String)
  | renderHome (authorizeUrl : String)
  | renderError (error : String)
  | renderSignUp (user : User) (message : Option String)
  | uncaughtFailure (error : String)
  deriving Repr, DecidableEq

/-- Result of one handler run: datastore afterwards, response, cookie op. -/
structure HandlerResult where
  store : List User
  response : Response
  cookie : CookieAction
  deriving Repr, DecidableEq

/-- JS truthiness of `req.signedCookies.recentSession`: the slot is falsy when
the cookie is absent (`undefined`), when its signature is invalid
(cookie-parser yields `false`), and when its value is the empty string.
`none` covers the absent and invalid-signature cases. -/
def cookieTruthy : Option String → Bool
  | Option.none => false
  | Option.some s => !(s == "")

/-- The message of the string thrown by the GET /sign-up handler on a
session lookup miss. -/
def couldNotFindUser : String := "Could not find user"

/-- The TypeError raised by `user.moreInfo = ...` in POST /sign-up when
`findUserWithSession` resolved to null. -/
def nullMoreInfoError : String := "TypeError: Cannot set properties of null"

/-- GET /callback.  `exchangeResult` is the outcome of
`await xero.apiCallback(requestUrl)` together with `await xero.updateTenants(false)`
(both awaited inside the try; a rejection of either is caught),
`tenants` is `xero.tenants` afterwards, `jwtDecode` decodes the id_token
(a pure transform, the token was validated during the exchange),
`recentSession` is the `uuid()` value, and `upsertResult` is the outcome of
the awaited `user.update` / `User.create` datastore call. -/
def callback (store : List User) (exchangeResult : Except String TokenSet)
    (tenants : List Tenant) (jwtDecode : String → DecodedIdToken)
    (recentSession : String) (upsertResult : Except String Unit) : HandlerResult :=
  match exchangeResult with
  | Except.error err => ⟨store, Response.renderError err, CookieAction.none⟩
  | Except.ok tokenSet =>
    let activeTenant := tenants.head?
    let decodedIdToken := jwtDecode tokenSet.id_token
    let user := findUserWithEmail decodedIdToken.email store
    let userParams : UserParams :=
      { firstName := decodedIdToken.given_name
        lastName := decodedIdToken.family_name
        email := decodedIdToken.email
        xero_userid := decodedIdToken.xero_userid
        decoded_id_token := decodedIdToken
        token_set := tokenSet
        active_tenant := activeTenant
        session := recentSession }
    match upsertResult with
    | Except.error err => ⟨store, Response.renderError err, CookieAction.none⟩
    | Except.ok _ =>
      let newStore :=
        match user with
        | Option.some _ => updateFirstWithEmail store decodedIdToken.email userParams
        | Option.none => store ++ [createUser userParams]
      ⟨newStore, Response.redirect "/sign-up",
        CookieAction.set "recentSession" recentSession⟩

/-- GET /sign-up.  `c` is the signed recentSession cookie slot.  The guard is
`if (req.signedCookies.recentSession)`, i.e. JS truthiness of the value. -/
def getSignUp (store : List User) (c : Option String) : HandlerResult :=
  match c with
  | Option.none => ⟨store, Response.redirect "/", CookieAction.none⟩
  | Option.some s =>
    if s == "" then ⟨store, Response.redirect "/", CookieAction.none⟩
    else
      match findUserWithSession s store with
      | Option.none => ⟨store, Response.renderError couldNotFindUser, CookieAction.none⟩
      | Option.some u => ⟨store, Response.renderSignUp u Option.none, CookieAction.none⟩

/-- POST /sign-up.  `v` is `req.body.moreInfo`; `saveOk` is whether the awaited
`user.save()` datastore write succeeds.  When the session matches no row the
property assignment on null throws, and the catch renders the error page. -/
def postSignUp (store : List User) (c : Option String) (v : String)
    (saveOk : Bool) : HandlerResult :=
  match c with
  | Option.none => ⟨store, Response.redirect "/", CookieAction.none⟩
  | Option.some s =>
    if s == "" then ⟨store, Response.redirect "/", CookieAction.none⟩
    else
      match findUserWithSession s store with
      | Option.none => ⟨store, Response.renderError nullMoreInfoError, CookieAction.none⟩
      | Option.some u =>
        if saveOk then
          ⟨updateMoreInfoFirstWithSession store s v,
            Response.renderSignUp { u with moreInfo := some v } (some "User updated"),
            CookieAction.none⟩
        else ⟨store, Response.renderError "save failed", CookieAction.none⟩

/-- GET /logout: clears the cookie only inside
`if (req.signedCookies.recentSession)`, then always redirects to /. -/
def logout (store : List User) (c : Option String) : HandlerResult :=
  if cookieTruthy c then ⟨store, Response.redirect "/", CookieAction.clear "recentSession"⟩
  else ⟨store, Response.redirect "/", CookieAction.none⟩

/-- GET /: renders home with `await xero.buildConsentUrl()`.  There is no
try/catch in this handler, so a rejected consent-url promise escapes. -/
def getHome (store : List User) (consentUrlResult : Except String String) :
    HandlerResult :=
  match consentUrlResult with
  | Except.ok url => ⟨store, Response.renderHome url, CookieAction.none⟩
  | Except.error err => ⟨store, Response.uncaughtFailure err, CookieAction.none⟩

/-- GET /xero/sign-up: redirects to `await xero.buildConsentUrl()`.  There is
no try/catch in this handler either. -/
def xeroSignUpRoute (store : List User) (consentUrlResult : Except String String) :
    HandlerResult :=
  match consentUrlResult with
  | Except.ok url => ⟨store, Response.redirect url, CookieAction.none⟩
  | Except.error err => ⟨store, Response.uncaughtFailure err, CookieAction.none⟩

/-- The request data and external-call outcomes of one GET /callback run. -/
structure CallbackRequest where
  exchangeResult : Except String TokenSet
  tenants : List Tenant
  jwtDecode : String → DecodedIdToken
  recentSession : String
  upsertResult : Except String Unit

/-- The store after a sequence of sequentially completed callback handlings. -/
def runCallbacks (store : List User) (reqs : List CallbackRequest) : List User :=
  reqs.foldl
    (fun st r =>
      (callback st r.exchangeResult r.tenants r.jwtDecode r.recentSession
        r.upsertResult).store)
    store

/-- Number of rows holding the given email. -/
def countEmail (store : List User) (e : String) : Nat :=
  (store.filter fun u => u.email == e).length

/-- The uniqueness invariant: at most one row per email. -/
def emailUnique (store : List User) : Prop :=
  ∀ e, countEmail store e ≤ 1

/-- Number of rows holding the given session identifier. -/
def countSession (store : List User) (s : String) : Nat :=
  (store.filter fun u => u.session == s).length

/- Helper lemmas about the store operations. -/

theorem countEmail_nil (e : String) : countEmail [] e = 0 := rfl

theorem countEmail_cons (u : User) (rest : List User) (e : String) :
    countEmail (u :: rest) e
      = (if u.email == e then 1 else 0) + countEmail rest e := by
  simp only [countEmail, List.filter_cons]
  split <;> simp [Nat.add_comm]

theorem countEmail_append (s t : List User) (e : String) :
    countEmail (s ++ t) e = countEmail s e + countEmail t e := by
  simp [countEmail, List.filter_append]

theorem countSession_cons (u : User) (rest : List User) (s : String) :
    countSession (u :: rest) s
      = (if u.session == s then 1 else 0) + countSession rest s := by
  simp only [countSession, List.filter_cons]
  split <;> simp [Nat.add_comm]

theorem countEmail_eq_zero_of_find_none (store : List User) (e : String)
    (h : findUserWithEmail e store = Option.none) : countEmail store e = 0 := by
  simp only [findUserWithEmail, List.find?_eq_none] at h
  simp only [countEmail, List.length_eq_zero, List.filter_eq_nil_iff]
  exact h

theorem find_session_eq_none_of_count_zero (store : List User) (s : String)
    (h : countSession store s = 0) : findUserWithSession s store = Option.none := by
  simp only [countSession, List.length_eq_zero, List.filter_eq_nil_iff] at h
  simp only [findUserWithSession, List.find?_eq_none]
  exact h

theorem countSession_pos_of_mem (store : List User) (u : User) (hm : u ∈ store) :
    1 ≤ countSession store u.session := by
  have hmem : u ∈ store.filter fun r => r.session == u.session :=
    List.mem_filter.mpr ⟨hm, by simp⟩
  exact List.length_pos.mpr (List.ne_nil_of_mem hmem)

theorem applyParams_moreInfo (u : User) (p : UserParams) :
    (u.applyParams p).moreInfo = u.moreInfo := rfl

theorem map_moreInfo_updateFirstWithEmail (store : List User) (e : String)
    (p : UserParams) :
    (updateFirstWithEmail store e p).map User.moreInfo = store.map User.moreInfo := by
  induction store with
  | nil => rfl
  | cons u rest ih =>
    simp only [updateFirstWithEmail]
    split
    · simp [User.applyParams]
    · simp [ih]

theorem countEmail_updateFirstWithEmail (store : List User) (e e' : String)
    (p : UserParams) (hp : p.email = e) :
    countEmail (updateFirstWithEmail store e p) e' = countEmail store e' := by
  induction store with
  | nil => rfl
  | cons u rest ih =>
    simp only [updateFirstWithEmail]
    split
    case isTrue h =>
      rw [countEmail_cons, countEmail_cons,
        show (u.applyParams p).email = u.email by
          simp [User.applyParams, hp, eq_of_beq h]]
    case isFalse h =>
      rw [countEmail_cons, countEmail_cons, ih]

theorem length_updateMoreInfoFirstWithSession (store : List User) (s v : String) :
    (updateMoreInfoFirstWithSession store s v).length = store.length := by
  induction store with
  | nil => rfl
  | cons u rest ih =>
    simp only [updateMoreInfoFirstWithSession]
    split <;> simp [ih]

theorem find_email_updateFirstWithEmail (store : List User) (e : String)
    (p : UserParams) (u : User)
    (hfind : findUserWithEmail e store = some u) (hp : p.email = e) :
    findUserWithEmail e (updateFirstWithEmail store e p) = some (u.applyParams p) := by
  simp only [findUserWithEmail] at hfind ⊢
  induction store with
  | nil => exact absurd hfind (by simp)
  | cons v rest ih =>
    cases hv : (v.email == e) with
    | true =>
      simp only [List.find?_cons, hv] at hfind
      have hvu := Option.some.inj hfind
      subst hvu
      have hpe : ((v.applyParams p).email == e) = true := beq_iff_eq.mpr hp
      simp only [updateFirstWithEmail, if_pos hv, List.find?_cons, hpe]
    | false =>
      simp only [List.find?_cons, hv] at hfind
      have hvp : ¬ ((v.email == e) = true) := by simp [hv]
      simp only [updateFirstWithEmail, if_neg hvp]
      simp only [List.find?_cons, hv]
      exact ih hfind

theorem find_session_updateFirstWithEmail_none (store : List User) (e : String)
    (p : UserParams) (u : User)
    (hfind : findUserWithEmail e store = some u) (_hp : p.email = e)
    (hps : p.session ≠ u.session) (huniq : countSession store u.session = 1) :
    findUserWithSession u.session (updateFirstWithEmail store e p) = Option.none := by
  simp only [findUserWithEmail, findUserWithSession] at hfind ⊢
  induction store with
  | nil => exact absurd hfind (by simp)
  | cons v rest ih =>
    cases hv : (v.email == e) with
    | true =>
      simp only [List.find?_cons, hv] at hfind
      have hvu := Option.some.inj hfind
      subst hvu
      have hc := countSession_cons v rest v.session
      rw [if_pos (beq_self_eq_true v.session), huniq] at hc
      have hcount : countSession rest v.session = 0 := by omega
      have hhead : ((v.applyParams p).session == v.session) = false :=
        beq_eq_false_iff_ne.mpr hps
      simp only [updateFirstWithEmail, if_pos hv, List.find?_cons, hhead]
      exact find_session_eq_none_of_count_zero rest v.session hcount
    | false =>
      simp only [List.find?_cons, hv] at hfind
      have humem : u ∈ rest := List.mem_of_find?_eq_some hfind
      have hrest_pos : 1 ≤ countSession rest u.session :=
        countSession_pos_of_mem rest u humem
      have hc := countSession_cons v rest u.session
      rw [huniq] at hc
      have hvs : (v.session == u.session) = false := by
        cases hvs : (v.session == u.session) with
        | true => rw [if_pos hvs] at hc; omega
        | false => rfl
      rw [if_neg (by simp [hvs])] at hc
      have huniq' : countSession rest u.session = 1 := by omega
      have hvp : ¬ ((v.email == e) = true) := by simp [hv]
      simp only [updateFirstWithEmail, if_neg hvp, List.find?_cons, hvs]
      exact ih hfind huniq'

theorem find_email_append_of_none (store : List User) (e : String) (u : User)
    (h : findUserWithEmail e store = Option.none) :
    findUserWithEmail e (store ++ [u])
      = if u.email == e then some u else Option.none := by
  simp only [findUserWithEmail] at h ⊢
  rw [List.find?_append, h]
  simp

theorem find_session_updateMoreInfoFirstWithSession (store : List User) (s v : String)
    (u : User) (hfind : findUserWithSession s store = some u) :
    findUserWithSession s (updateMoreInfoFirstWithSession store s v)
      = some { u with moreInfo := some v } := by
  simp only [findUserWithSession] at hfind ⊢
  induction store with
  | nil => exact absurd hfind (by simp)
  | cons w rest ih =>
    cases hw : (w.session == s) with
    | true =>
      simp only [List.find?_cons, hw] at hfind
      have hwu := Option.some.inj hfind
      subst hwu
      have hw' : (({ w with moreInfo := some v } : User).session == s) = true := hw
      simp only [updateMoreInfoFirstWithSession, if_pos hw]
      simp only [List.find?_cons, hw']
    | false =>
      simp only [List.find?_cons, hw] at hfind
      have hwp : ¬ ((w.session == s) = true) := by simp [hw]
      simp only [updateMoreInfoFirstWithSession, if_neg hwp]
      simp only [List.find?_cons, hw]
      exact ih hfind

/-- The `userParams` record the callback assembles from the decoded token,
the tenant list head and the fresh session identifier (named here so the
equation lemmas below can mention it). -/
def callbackParams (tenants : List Tenant) (jdec : String → DecodedIdToken)
    (ts : TokenSet) (fresh : String) : UserParams :=
  { firstName := (jdec ts.id_token).given_name
    lastName := (jdec ts.id_token).family_name
    email := (jdec ts.id_token).email
    xero_userid := (jdec ts.id_token).xero_userid
    decoded_id_token := jdec ts.id_token
    token_set := ts
    active_tenant := tenants.head?
    session := fresh }

theorem callback_ok_found (store : List User) (ts : TokenSet)
    (tenants : List Tenant) (jdec : String → DecodedIdToken) (fresh : String)
    (u : User) (hf : findUserWithEmail (jdec ts.id_token).email store = some u) :
    callback store (Except.ok ts) tenants jdec fresh (Except.ok ())
      = ⟨updateFirstWithEmail store (jdec ts.id_token).email
            (callbackParams tenants jdec ts fresh),
          Response.redirect "/sign-up", CookieAction.set "recentSession" fresh⟩ := by
  simp only [callback, callbackParams]
  rw [hf]

theorem callback_ok_notfound (store : List User) (ts : TokenSet)
    (tenants : List Tenant) (jdec : String → DecodedIdToken) (fresh : String)
    (hf : findUserWithEmail (jdec ts.id_token).email store = Option.none) :
    callback store (Except.ok ts) tenants jdec fresh (Except.ok ())
      = ⟨store ++ [createUser (callbackParams tenants jdec ts fresh)],
          Response.redirect "/sign-up", CookieAction.set "recentSession" fresh⟩ := by
  simp only [callback, callbackParams]
  rw [hf]

theorem emailUnique_callback (store : List User) (exR : Except String TokenSet)
    (tenants : List Tenant) (jdec : String → DecodedIdToken) (fresh : String)
    (upR : Except String Unit) (h : emailUnique store) :
    emailUnique (callback store exR tenants jdec fresh upR).store := by
  cases exR with
  | error e => exact h
  | ok ts =>
    cases upR with
    | error d => exact h
    | ok uu =>
      cases uu
      cases hf : findUserWithEmail (jdec ts.id_token).email store with
      | some u =>
        rw [callback_ok_found store ts tenants jdec fresh u hf]
        intro e'
        show countEmail (updateFirstWithEmail store (jdec ts.id_token).email
          (callbackParams tenants jdec ts fresh)) e' ≤ 1
        rw [countEmail_updateFirstWithEmail store ((jdec ts.id_token).email) e'
          (callbackParams tenants jdec ts fresh) rfl]
        exact h e'
      | none =>
        rw [callback_ok_notfound store ts tenants jdec fresh hf]
        intro e'
        show countEmail (store ++ [createUser (callbackParams tenants jdec ts fresh)]) e' ≤ 1
        rw [countEmail_append, countEmail_cons, countEmail_nil]
        cases he' : ((createUser (callbackParams tenants jdec ts fresh)).email == e') with
        | true =>
          have he'' : (jdec ts.id_token).email = e' := eq_of_beq he'
          have hz : countEmail store e' = 0 := by
            rw [← he'']
            exact countEmail_eq_zero_of_find_none store _ hf
          rw [hz]
          simp
        | false =>
          have hle := h e'
          rw [if_neg (by simp)]
          omega

theorem updateMoreInfoFirstWithSession_idem (store : List User) (s v : String) :
    updateMoreInfoFirstWithSession (updateMoreInfoFirstWithSession store s v) s v
      = updateMoreInfoFirstWithSession store s v := by
  induction store with
  | nil => rfl
  | cons w rest ih =>
    by_cases hw : (w.session == s) = true
    · simp [updateMoreInfoFirstWithSession, if_pos hw, hw]
    · simp [updateMoreInfoFirstWithSession, if_neg hw, hw, ih]

/-- Shared gate fact: a truthy cookie value that matches no row makes GET
/sign-up throw and catch the lookup-miss string, and makes POST /sign-up
throw and catch the null property assignment; both render the error page. -/
theorem gate_miss_renders_error (store : List User) (s v : String) (saveOk : Bool)
    (hs : s ≠ "") (hmiss : findUserWithSession s store = Option.none) :
    (getSignUp store (Option.some s)).response = Response.renderError couldNotFindUser
    ∧ (postSignUp store (Option.some s) v saveOk).response
        = Response.renderError nullMoreInfoError := by
  have hsb : (s == "") = false := beq_eq_false_iff_ne.mpr hs
  have hsp : ¬ ((s == "") = true) := by simp [hsb]
  constructor
  · simp only [getSignUp, if_neg hsp]
    rw [hmiss]
  · simp only [postSignUp, if_neg hsp]
    rw [hmiss]

/- Concrete data for the witnesses. -/

/-- Sample identity claims used by the concrete witnesses. -/
def sampleDecoded : DecodedIdToken :=
  { given_name := "Ann", family_name := "Lee", email := "ann@example.com",
    xero_userid := "xuid-1" }

/-- Sample token set used by the concrete witnesses. -/
def sampleToken : TokenSet := { id_token := "idtok" }

/-- A concrete, fully successful callback request. -/
def sampleRequest : CallbackRequest :=
  { exchangeResult := Except.ok sampleToken
    tenants := []
    jwtDecode := fun _ => sampleDecoded
    recentSession := "sess-1"
    upsertResult := Except.ok () }

/-- A concrete pre-existing User row holding session "old-sess". -/
def sampleUserOld : User :=
  { firstName := "Ann", lastName := "Lee", email := "ann@example.com",
    xero_userid := "xuid-1", decoded_id_token := Option.none,
    token_set := Option.none, active_tenant := Option.none,
    session := "old-sess", moreInfo := Option.none }

/- The claims. -/

/-- C1: after any sequence of sequentially completed callback handlings
starting from a store with at most one row per email, the store still has at
most one row per email: the callback looks up by exact email and updates the
found row in place, and appends a new row only when the lookup found none. -/
theorem callback_sequences_preserve_email_uniqueness (store : List User)
    (reqs : List CallbackRequest) (h : emailUnique store) :
    emailUnique (runCallbacks store reqs) := by
  induction reqs generalizing store with
  | nil => exact h
  | cons r rest ih =>
    simp only [runCallbacks, List.foldl_cons] at ih ⊢
    exact ih _ (emailUnique_callback store r.exchangeResult r.tenants r.jwtDecode
      r.recentSession r.upsertResult h)

/-- Witness for C1: the empty store, then one concrete successful callback. -/
theorem callback_sequences_preserve_email_uniqueness_witness :
    emailUnique (runCallbacks [] [sampleRequest]) :=
  callback_sequences_preserve_email_uniqueness [] [sampleRequest]
    (fun e => by simp [countEmail])

/-- C2: a successful callback for an already-stored email writes the fresh
identifier into that user's session field, issues the signed cookie carrying
exactly that identifier, and — the fresh identifier being new and the old one
held by a single row — the previously stored session value matches no row
once the callback completes. -/
theorem callback_rotates_session (store : List User) (ts : TokenSet)
    (tenants : List Tenant) (jdec : String → DecodedIdToken) (fresh : String)
    (u : User)
    (hfind : findUserWithEmail (jdec ts.id_token).email store = some u)
    (huniq : countSession store u.session = 1)
    (hfresh : fresh ≠ u.session) :
    (callback store (Except.ok ts) tenants jdec fresh (Except.ok ())).cookie
        = CookieAction.set "recentSession" fresh
    ∧ (findUserWithEmail (jdec ts.id_token).email
          (callback store (Except.ok ts) tenants jdec fresh (Except.ok ())).store).map
        User.session = some fresh
    ∧ findUserWithSession u.session
        (callback store (Except.ok ts) tenants jdec fresh (Except.ok ())).store
      = Option.none := by
  rw [callback_ok_found store ts tenants jdec fresh u hfind]
  refine ⟨rfl, ?_, ?_⟩
  · show (findUserWithEmail (jdec ts.id_token).email
      (updateFirstWithEmail store (jdec ts.id_token).email
        (callbackParams tenants jdec ts fresh))).map User.session = some fresh
    rw [find_email_updateFirstWithEmail store _ _ u hfind rfl]
    rfl
  · show findUserWithSession u.session
      (updateFirstWithEmail store (jdec ts.id_token).email
        (callbackParams tenants jdec ts fresh)) = Option.none
    exact find_session_updateFirstWithEmail_none store _ _ u hfind rfl
      (fun hcontra => hfresh hcontra) huniq

/-- Witness for C2 at a concrete one-row store. -/
theorem callback_rotates_session_witness :
    findUserWithEmail "ann@example.com" [sampleUserOld] = some sampleUserOld
    ∧ countSession [sampleUserOld] "old-sess" = 1
    ∧ findUserWithSession "old-sess"
        (callback [sampleUserOld] (Except.ok sampleToken) []
          (fun _ => sampleDecoded) "new-sess" (Except.ok ())).store
      = Option.none :=
  ⟨rfl, rfl,
    (callback_rotates_session [sampleUserOld] sampleToken []
      (fun _ => sampleDecoded) "new-sess" sampleUserOld rfl rfl
      (by decide)).2.2⟩

/-- C3: when the callback's datastore upsert fails the handler renders the
error display carrying the detail, leaves the store untouched and performs no
cookie operation; an exchange failure performs no cookie operation either, so
the recentSession cookie is issued only after a successful upsert. -/
theorem upsert_failure_renders_error_and_no_cookie (store : List User)
    (ts : TokenSet) (tenants : List Tenant) (jdec : String → DecodedIdToken)
    (fresh : String) (d e : String) (upR : Except String Unit) :
    callback store (Except.ok ts) tenants jdec fresh (Except.error d)
        = ⟨store, Response.renderError d, CookieAction.none⟩
    ∧ callback store (Except.error e) tenants jdec fresh upR
        = ⟨store, Response.renderError e, CookieAction.none⟩ :=
  ⟨rfl, rfl⟩

/-- C4: a gated request whose signed jar has no recentSession cookie is
answered by a redirect to /, with the store passed through untouched, no
cookie operation, and a response that does not depend on the store. -/
theorem gated_routes_without_cookie_redirect_home (store store' : List User)
    (v : String) (saveOk : Bool) :
    getSignUp store Option.none = ⟨store, Response.redirect "/", CookieAction.none⟩
    ∧ postSignUp store Option.none v saveOk
        = ⟨store, Response.redirect "/", CookieAction.none⟩
    ∧ (getSignUp store Option.none).response = (getSignUp store' Option.none).response
    ∧ (postSignUp store Option.none v saveOk).response
        = (postSignUp store' Option.none v saveOk).response :=
  ⟨rfl, rfl, rfl, rfl⟩

/-- C5 counterexample: the signed jar holds a recentSession cookie whose
value is the empty string — a session identifier matching no row — yet both
gated handlers answer with the anonymous redirect to /, because the guard
tests JS truthiness and the empty string is falsy. -/
theorem empty_session_cookie_redirects_counterexample :
    findUserWithSession "" [] = Option.none
    ∧ (getSignUp [] (Option.some "")).response = Response.redirect "/"
    ∧ (postSignUp [] (Option.some "") "info" true).response = Response.redirect "/"
    ∧ (getSignUp [] (Option.some "")).response ≠ Response.renderError couldNotFindUser :=
  ⟨rfl, rfl, rfl, by decide⟩

/-- C5 (amended): for every nonempty session identifier S present in the
signed recentSession cookie but matching no row, both gated handlers render
the error page, never the anonymous redirect (an empty-string cookie value is
falsy in the guard and is treated like an absent cookie). -/
theorem stale_session_renders_error (store : List User) (s v : String)
    (saveOk : Bool) (hs : s ≠ "")
    (hmiss : findUserWithSession s store = Option.none) :
    (getSignUp store (Option.some s)).response = Response.renderError couldNotFindUser
    ∧ (postSignUp store (Option.some s) v saveOk).response
        = Response.renderError nullMoreInfoError :=
  gate_miss_renders_error store s v saveOk hs hmiss

/-- Witness for the amended C5 at a concrete input. -/
theorem stale_session_renders_error_witness :
    ("sess-x" : String) ≠ ""
    ∧ findUserWithSession "sess-x" [] = Option.none
    ∧ (getSignUp [] (Option.some "sess-x")).response
        = Response.renderError couldNotFindUser :=
  ⟨by decide, rfl,
    (stale_session_renders_error [] "sess-x" "info" true (by decide) rfl).1⟩

/-- C6 counterexample: on GET /logout with no cookie present the handler
performs no cookie operation at all — `clearCookie` sits inside a presence
check — so the clear is not unconditional. -/
theorem logout_without_cookie_no_clear_counterexample :
    (logout [] Option.none).cookie = CookieAction.none
    ∧ (logout [] Option.none).cookie ≠ CookieAction.clear "recentSession" :=
  ⟨rfl, by decide⟩

/-- C6 (amended): GET /logout clears the recentSession cookie exactly when a
truthy signed cookie is present (matching a row or not); in every case it
performs no datastore mutation — every row and its session value is kept —
and redirects to /. -/
theorem logout_clears_iff_cookie_present (store : List User) (c : Option String) :
    (logout store c).store = store
    ∧ (logout store c).response = Response.redirect "/"
    ∧ (logout store c).cookie
        = (if cookieTruthy c then CookieAction.clear "recentSession"
            else CookieAction.none) := by
  by_cases h : cookieTruthy c = true
  · simp [logout, h]
  · simp [logout, h]

/-- C7: the callback upsert's field set excludes moreInfo: the moreInfo
column of every pre-existing row survives any callback unchanged (a created
row starts with no moreInfo), and of the remaining handlers only POST
/sign-up ever changes the store at all. -/
theorem callback_never_writes_moreInfo (store : List User)
    (exR : Except String TokenSet) (tenants : List Tenant)
    (jdec : String → DecodedIdToken) (fresh : String) (upR : Except String Unit)
    (c : Option String) (url : Except String String) :
    ((callback store exR tenants jdec fresh upR).store.map User.moreInfo
        = store.map User.moreInfo
      ∨ (callback store exR tenants jdec fresh upR).store.map User.moreInfo
        = store.map User.moreInfo ++ [Option.none])
    ∧ (getSignUp store c).store = store
    ∧ (logout store c).store = store
    ∧ (getHome store url).store = store
    ∧ (xeroSignUpRoute store url).store = store := by
  refine ⟨?_, ?_, ?_, ?_, ?_⟩
  · cases exR with
    | error e => exact Or.inl rfl
    | ok ts =>
      cases upR with
      | error d => exact Or.inl rfl
      | ok uu =>
        cases uu
        cases hf : findUserWithEmail (jdec ts.id_token).email store with
        | some u =>
          rw [callback_ok_found store ts tenants jdec fresh u hf]
          exact Or.inl (map_moreInfo_updateFirstWithEmail store _ _)
        | none =>
          rw [callback_ok_notfound store ts tenants jdec fresh hf]
          exact Or.inr (by simp [createUser])
  · cases c with
    | none => rfl
    | some s =>
      simp only [getSignUp]
      split
      · rfl
      · cases findUserWithSession s store <;> rfl
  · by_cases h : cookieTruthy c = true <;> simp [logout, h]
  · cases url <;> rfl
  · cases url <;> rfl

/-- C8: with a valid cookie whose session matches a row, submitting the
same moreInfo twice is idempotent — the store after the second submission
equals the store after the first, the row count is unchanged, and the row
found by the session holds exactly the submitted value. -/
theorem post_signup_moreInfo_idempotent (store : List User) (s v : String)
    (u : User) (hs : s ≠ "") (hfind : findUserWithSession s store = some u) :
    (postSignUp (postSignUp store (Option.some s) v true).store
        (Option.some s) v true).store
      = (postSignUp store (Option.some s) v true).store
    ∧ (postSignUp store (Option.some s) v true).store.length = store.length
    ∧ findUserWithSession s
        (postSignUp (postSignUp store (Option.some s) v true).store
          (Option.some s) v true).store
      = some { u with moreInfo := some v } := by
  have hsp : ¬ ((s == "") = true) := by simp [beq_eq_false_iff_ne.mpr hs]
  have h1 : (postSignUp store (Option.some s) v true).store
      = updateMoreInfoFirstWithSession store s v := by
    simp only [postSignUp, if_neg hsp]
    rw [hfind]
    simp
  have hfind2 : findUserWithSession s (updateMoreInfoFirstWithSession store s v)
      = some { u with moreInfo := some v } :=
    find_session_updateMoreInfoFirstWithSession store s v u hfind
  have h2 : (postSignUp (updateMoreInfoFirstWithSession store s v)
        (Option.some s) v true).store
      = updateMoreInfoFirstWithSession (updateMoreInfoFirstWithSession store s v) s v := by
    simp only [postSignUp, if_neg hsp]
    rw [hfind2]
    simp
  refine ⟨?_, ?_, ?_⟩
  · rw [h1, h2, updateMoreInfoFirstWithSession_idem]
  · rw [h1, length_updateMoreInfoFirstWithSession]
  · rw [h1, h2, updateMoreInfoFirstWithSession_idem]
    exact hfind2

/-- Witness for C8 at a concrete one-row store. -/
theorem post_signup_moreInfo_idempotent_witness :
    ("old-sess" : String) ≠ ""
    ∧ findUserWithSession "old-sess" [sampleUserOld] = some sampleUserOld
    ∧ (postSignUp (postSignUp [sampleUserOld] (Option.some "old-sess") "more" true).store
        (Option.some "old-sess") "more" true).store
      = (postSignUp [sampleUserOld] (Option.some "old-sess") "more" true).store :=
  ⟨by decide, rfl,
    (post_signup_moreInfo_idempotent [sampleUserOld] "old-sess" "more" sampleUserOld
      (by decide) rfl).1⟩

/-- C9 counterexample: a failure while building the authorization URL in
GET / is not rendered as the error page — the handler has no try/catch, so
the rejection escapes it uncaught. -/
theorem home_failure_escapes_counterexample :
    (getHome [] (Except.error "boom")).response = Response.uncaughtFailure "boom"
    ∧ (getHome [] (Except.error "boom")).response ≠ Response.renderError "boom"
    ∧ (xeroSignUpRoute [] (Except.error "boom")).response
        = Response.uncaughtFailure "boom" :=
  ⟨rfl, by decide, rfl⟩

/-- C9 (amended): failures raised while handling /callback, GET /sign-up and
POST /sign-up are caught at the route boundary and rendered as the error page
carrying the detail; GET / and GET /xero/sign-up have no route-level catch,
so a consent-URL failure escapes those two handlers uncaught. -/
theorem failures_caught_at_route_boundaries (store : List User) (e d s v : String)
    (tenants : List Tenant) (jdec : String → DecodedIdToken) (fresh : String)
    (ts : TokenSet) (saveOk : Bool) (upR : Except String Unit)
    (hs : s ≠ "") (hmiss : findUserWithSession s store = Option.none) :
    (callback store (Except.error e) tenants jdec fresh upR).response
        = Response.renderError e
    ∧ (callback store (Except.ok ts) tenants jdec fresh (Except.error d)).response
        = Response.renderError d
    ∧ (getSignUp store (Option.some s)).response = Response.renderError couldNotFindUser
    ∧ (postSignUp store (Option.some s) v saveOk).response
        = Response.renderError nullMoreInfoError
    ∧ (getHome store (Except.error e)).response = Response.uncaughtFailure e
    ∧ (xeroSignUpRoute store (Except.error e)).response = Response.uncaughtFailure e := by
  have hgate := gate_miss_renders_error store s v saveOk hs hmiss
  exact ⟨rfl, rfl, hgate.1, hgate.2, rfl, rfl⟩

/-- Witness for the amended C9 at a concrete input. -/
theorem failures_caught_at_route_boundaries_witness :
    ("sess-x" : String) ≠ ""
    ∧ findUserWithSession "sess-x" [] = Option.none
    ∧ (callback [] (Except.error "bad code") [] (fun _ => sampleDecoded) "sess-1"
        (Except.ok ())).response = Response.renderError "bad code" :=
  ⟨by decide, rfl,
    (failures_caught_at_route_boundaries [] "bad code" "db down" "sess-x" "info"
      [] (fun _ => sampleDecoded) "sess-1" sampleToken true (Except.ok ())
      (by decide) rfl).1⟩

/-- C10: with an empty tenant list the callback does not fail at the
active-tenant step: `tenants[0]` is undefined, the handler still completes
with the redirect and the cookie, and the row upserted for the decoded email
carries no active_tenant (and the fresh session). -/
theorem empty_tenants_callback_proceeds (store : List User) (ts : TokenSet)
    (jdec : String → DecodedIdToken) (fresh : String) :
    (callback store (Except.ok ts) [] jdec fresh (Except.ok ())).response
        = Response.redirect "/sign-up"
    ∧ (callback store (Except.ok ts) [] jdec fresh (Except.ok ())).cookie
        = CookieAction.set "recentSession" fresh
    ∧ ∃ row : User,
        findUserWithEmail (jdec ts.id_token).email
            (callback store (Except.ok ts) [] jdec fresh (Except.ok ())).store
          = some row
        ∧ row.active_tenant = Option.none ∧ row.session = fresh := by
  cases hf : findUserWithEmail (jdec ts.id_token).email store with
  | some u =>
    rw [callback_ok_found store ts [] jdec fresh u hf]
    refine ⟨rfl, rfl, u.applyParams (callbackParams [] jdec ts fresh), ?_, rfl, rfl⟩
    exact find_email_updateFirstWithEmail store _ _ u hf rfl
  | none =>
    rw [callback_ok_notfound store ts [] jdec fresh hf]
    refine ⟨rfl, rfl, createUser (callbackParams [] jdec ts fresh), ?_, rfl, rfl⟩
    show findUserWithEmail (jdec ts.id_token).email
      (store ++ [createUser (callbackParams [] jdec ts fresh)])
        = some (createUser (callbackParams [] jdec ts fresh))
    rw [find_email_append_of_none store _ _ hf]
    simp [createUser, callbackParams]

end XeroSSU
